import Mathlib

/-
Verification of the rayTracing3D renderer core.

Shallow embedding conventions:
* f64 values are modelled as exact rationals (ℚ).  The three transcendental
  f64 operations the code uses (sqrt, acos, cos) cannot be represented inside
  ℚ, so the whole development is parametrised by a `FloatOps` record holding
  those three functions; theorems that need a property of real square roots
  state it as an explicit hypothesis, and concrete evaluations use `qF`, whose
  sqrt is exact on perfect squares (all concrete inputs are chosen so that
  every square root taken is a perfect square).
* Rust `Result<T, RayTracingError>` becomes `Outcome T` with constructors
  `ok` / `err`; a Rust panic (out-of-bounds index) is the extra constructor
  `panicked`, which no `Result` value can represent.
* float_cmp's `approx_eq!(ulps = 2)` bit-level comparison degenerates to exact
  equality in the exact-rational model; where the source combines it with an
  absolute `epsilon`, the epsilon bound is kept.
* the repository is mid-refactor: `geometry/ray.rs` and `optic/image.rs` use a
  flat x/y/z vector (modelled as `Vec3`) while `geometry/vector.rs`,
  `geometry/shape.rs` and `optic/color.rs` use the norme/unit-direction pair
  (modelled as `Vector`/`UnitVector`).  Both are embedded.
-/

namespace RayTracing

/-- Record of the f64 operations that have no exact rational counterpart. -/
structure FloatOps where
  sqrt : ℚ → ℚ
  acos : ℚ → ℚ
  cos : ℚ → ℚ

/-- Rational square root used for concrete evaluations: exact on perfect
square naturals, which covers every concrete input appearing below. -/
def qsqrt (q : ℚ) : ℚ := (Nat.sqrt q.num.toNat : ℚ)

/-- Concrete FloatOps instance for witnesses and counterexamples. -/
def qF : FloatOps := { sqrt := qsqrt, acos := fun _ => 0, cos := fun _ => 0 }

/-- Epsilon used by `Ray::intersect` and by the epsilon-based equalities
(1.0e-12 in the source, idealised to the exact rational 10⁻¹²). -/
def eps : ℚ := 1 / 10 ^ 12

/-- Exact value of `f64::MAX`, the sentinel initial hit distance used by
`Ray::first_point_hit_by_ray`. -/
def fMAX : ℚ := 2 ^ 1024 - 2 ^ 971

/-- Point from `geometry/point.rs`: three f64 coordinates. -/
structure Point where
  x : ℚ
  y : ℚ
  z : ℚ
deriving DecidableEq

/-- Flat three-component vector as used by `geometry/ray.rs` and
`optic/image.rs` (the post-refactor vector representation: plain public
x/y/z fields, infallible construction). -/
structure Vec3 where
  x : ℚ
  y : ℚ
  z : ℚ
deriving DecidableEq

/-- Sphere from `geometry/shape.rs`: center plus radius. -/
structure Sphere where
  center : Point
  radius : ℚ
deriving DecidableEq

/-- Error enum from `error.rs`.  Payloads that are only format strings in the
source are dropped. -/
inductive RayTracingError where
  | UnitVectorFromZeroVector : RayTracingError
  | PointNotOnSphere : Point → Sphere → RayTracingError
  | NoSphereAtIndex : ℕ → ℕ → RayTracingError
  | RayBetweenPointsDoesNotHitPoint : Point → Point → RayTracingError
  | SourceNotVisibleFromPoint : RayTracingError
  | VectorHasNormeZero : RayTracingError
  | DiffusionCoefficientOOB : ℚ → ℚ → ℚ → RayTracingError
  | CoefficientOOB : ℚ → ℚ → ℚ → RayTracingError
  | IteratorDepleted : RayTracingError
deriving DecidableEq

/-- Result of a fallible computation.  `ok`/`err` model Rust's
`Result<α, RayTracingError>`; `panicked` models a Rust panic (used for the
out-of-bounds `objects[0]` indexing), which is not a `Result` value. -/
inductive Outcome (α : Type) where
  | ok : α → Outcome α
  | err : RayTracingError → Outcome α
  | panicked : Outcome α
deriving DecidableEq

namespace Outcome

def bind {α β : Type} : Outcome α → (α → Outcome β) → Outcome β
  | .ok a, f => f a
  | .err e, _ => .err e
  | .panicked, _ => .panicked

end Outcome

instance : Monad Outcome where
  pure := Outcome.ok
  bind := Outcome.bind

namespace Point

/-- Point subtraction (componentwise), `impl Sub for &Point`. -/
def sub (p q : Point) : Point := ⟨p.x - q.x, p.y - q.y, p.z - q.z⟩

/-- Point plus flat vector, `impl Add<&Vector> for &Point`. -/
def addVec (p : Point) (v : Vec3) : Point := ⟨p.x + v.x, p.y + v.y, p.z + v.z⟩

end Point

namespace Vec3

/-- Vector::new_from_points for the flat vector: destination minus origin. -/
def new_from_points (origin destination : Point) : Vec3 :=
  ⟨destination.x - origin.x, destination.y - origin.y, destination.z - origin.z⟩

/-- Vector::new_from_coordinates for the flat vector. -/
def new_from_coordinates (x y z : ℚ) : Vec3 := ⟨x, y, z⟩

/-- Componentwise dot product. -/
def scalar_product (v w : Vec3) : ℚ := v.x * w.x + v.y * w.y + v.z * w.z

/-- Vector magnitude: sqrt of the self dot product. -/
def norme (F : FloatOps) (v : Vec3) : ℚ := F.sqrt (v.scalar_product v)

/-- Vector normalization: fails with `VectorHasNormeZero` when the magnitude
is zero, otherwise divides every component by the magnitude (semantics of
`Vector::normalize` in `geometry/vector.rs`, lines 55-66, transported to the
flat representation used by `ray.rs`). -/
def normalize (F : FloatOps) (v : Vec3) : Outcome Vec3 :=
  if v.norme F = 0 then .err .VectorHasNormeZero
  else .ok ⟨v.x / v.norme F, v.y / v.norme F, v.z / v.norme F⟩

/-- Scalar multiple of a flat vector. -/
def smul (q : ℚ) (v : Vec3) : Vec3 := ⟨q * v.x, q * v.y, q * v.z⟩

/-- Vector addition. -/
def add (v w : Vec3) : Vec3 := ⟨v.x + w.x, v.y + w.y, v.z + w.z⟩

end Vec3

/-- PartialEq for Point: the two points are equal when their distance is in
[0, 1e-12] (`geometry/point.rs`). -/
def pointEq (F : FloatOps) (p q : Point) : Bool :=
  let d := Vec3.norme F ⟨p.x - q.x, p.y - q.y, p.z - q.z⟩
  decide (0 ≤ d ∧ d ≤ eps)

/-- PartialEq for Sphere: epsilon-equal centers and (ulps = 2, modelled as
exact) equal radii (`geometry/shape.rs`). -/
def sphereEq (F : FloatOps) (s t : Sphere) : Bool :=
  pointEq F s.center t.center && decide (s.radius = t.radius)

/-- Rust `as u8` cast applied to a non-negative-or-negative float: values are
clamped into [0, 255] and truncated toward zero (`optic/color.rs` relies on
the saturating `as` semantics of Rust ≥ 1.45). -/
def toU8 (q : ℚ) : ℕ := min 255 (max 0 ⌊q⌋).toNat

/-- Color from `optic/color.rs`: three u8 channels, kept as naturals that all
operations clamp into [0, 255]. -/
structure Color where
  r : ℕ
  g : ℕ
  b : ℕ
deriving DecidableEq

namespace Color

/-- Saturating per-channel color addition, `impl Add for &Color`. -/
def add (c d : Color) : Color :=
  ⟨min 255 (c.r + d.r), min 255 (c.g + d.g), min 255 (c.b + d.b)⟩

/-- Color times f64 scalar with clamped `as u8` cast,
`impl Mul<f64> for &Color`. -/
def mulScalar (c : Color) (q : ℚ) : Color :=
  ⟨toU8 (c.r * q), toU8 (c.g * q), toU8 (c.b * q)⟩

end Color

/-- BLACK constant. -/
def BLACK : Color := ⟨0, 0, 0⟩

/-- WHITE constant. -/
def WHITE : Color := ⟨255, 255, 255⟩

/-- Per-channel diffusion (albedo) coefficients, `optic/color.rs` (f32 fields
idealised to ℚ). -/
structure DiffusionCoefficient where
  dr : ℚ
  dg : ℚ
  db : ℚ
deriving DecidableEq

/-- DiffusionCoefficient::new: fails when any channel is outside [0, 1]. -/
def DiffusionCoefficient.new (dr dg db : ℚ) : Outcome DiffusionCoefficient :=
  if ¬(0 ≤ dr ∧ dr ≤ 1) ∨ ¬(0 ≤ dg ∧ dg ≤ 1) ∨ ¬(0 ≤ db ∧ db ≤ 1) then
    .err (.DiffusionCoefficientOOB dr dg db)
  else .ok ⟨dr, dg, db⟩

/-- Diffusion coefficient times color, per channel with `as u8` cast,
`impl Mul<&Color> for &DiffusionCoefficient` (also reached through
`impl Mul<&DiffusionCoefficient> for &Color`, which swaps the operands). -/
def dcMulColor (dc : DiffusionCoefficient) (c : Color) : Color :=
  ⟨toU8 (c.r * dc.dr), toU8 (c.g * dc.dg), toU8 (c.b * dc.db)⟩

/-- Modelled from the spec: the `Mul<&Color> for &Color` impl used by
`trace_pixel_color` (`&light_emitted_by_hit_object * &ray_color`) is absent
from the src snapshot; per §4.6 the throughput color acts as a per-channel
attenuation filter, so the product is taken per channel with the second
factor scaled to [0, 1] and cast back with `as u8` semantics. -/
def colorMulColor (c d : Color) : Color :=
  ⟨toU8 (c.r * d.r / 255), toU8 (c.g * d.g / 255), toU8 (c.b * d.b / 255)⟩

/-- Material from `optic/material.rs`. -/
structure Material where
  emission_color : Color
  emission_strength : ℚ
  diffusion_coefficients : DiffusionCoefficient
  reflection_coeff : ℚ
deriving DecidableEq

/-- Material::new: fails when the reflection coefficient, then the emission
strength, is outside [0, 1]. -/
def Material.new (ec : Color) (es : ℚ) (dc : DiffusionCoefficient) (rc : ℚ) :
    Outcome Material :=
  if ¬(0 ≤ rc ∧ rc ≤ 1) then .err (.CoefficientOOB rc 0 1)
  else if ¬(0 ≤ es ∧ es ≤ 1) then .err (.CoefficientOOB es 0 1)
  else .ok ⟨ec, es, dc, rc⟩

/-- Object from `object.rs`: a sphere plus a material. -/
structure Object where
  shape : Sphere
  material : Material
deriving DecidableEq

/-- Ray from `geometry/ray.rs`: origin point plus (flat) direction vector. -/
structure Ray where
  origin : Point
  direction : Vec3
deriving DecidableEq

/-- HitInfo from `geometry/ray.rs` (the borrowed object reference becomes the
object value). -/
structure HitInfo where
  object : Object
  point_hit : Point
  normal : Vec3
  hit_distance : ℚ
deriving DecidableEq

/-- Coefficient b = 2(u · CO) of the intersection quadratic of
`Ray::intersect`, with CO the vector from sphere center to ray origin. -/
def quad_b (ray : Ray) (object : Object) (normalized_dir : Vec3) : ℚ :=
  2 * normalized_dir.scalar_product
    (Vec3.new_from_points object.shape.center ray.origin)

/-- Coefficient c = |CO|² - r² of the intersection quadratic. -/
def quad_c (ray : Ray) (object : Object) : ℚ :=
  (Vec3.new_from_points object.shape.center ray.origin).scalar_product
    (Vec3.new_from_points object.shape.center ray.origin) -
    object.shape.radius ^ 2

/-- Discriminant delta = b² - 4c of the intersection quadratic. -/
def quad_delta (ray : Ray) (object : Object) (normalized_dir : Vec3) : ℚ :=
  quad_b ray object normalized_dir * quad_b ray object normalized_dir -
    4 * quad_c ray object

/-- HitInfo built by Ray::intersect on success: hit point at
origin + t·direction, normal from sphere center to the hit point. -/
def mkHitInfo (ray : Ray) (object : Object) (normalized_dir : Vec3)
    (hit_distance : ℚ) : HitInfo :=
  let point_hit := ray.origin.addVec (Vec3.smul hit_distance normalized_dir)
  ⟨object, point_hit, Vec3.new_from_points object.shape.center point_hit,
    hit_distance⟩

/-- Ray::intersect (`geometry/ray.rs`, lines 26-88): analytic ray-sphere
intersection.  Normalizes the direction (propagating a zero-norm error),
forms b, c and the discriminant delta, then branches exactly as the source:
delta < -eps: no hit; delta within [-eps, eps]: tangent hit at -b/2 with no
sign check; otherwise takes the two roots and accepts their min when both
are non-negative, the first root when only it is non-negative, and returns
no hit in the remaining case. -/
def intersect (F : FloatOps) (ray : Ray) (object : Object) :
    Outcome (Option HitInfo) :=
  (ray.direction.normalize F).bind fun normalized_dir =>
    let b := quad_b ray object normalized_dir
    let delta := quad_delta ray object normalized_dir
    if delta < -eps then .ok none
    else
      if -eps ≤ delta ∧ delta ≤ eps then
        .ok (some (mkHitInfo ray object normalized_dir (-b / 2)))
      else
        let first_distance := (-b - F.sqrt delta) / 2
        let second_distance := (-b + F.sqrt delta) / 2
        if 0 ≤ first_distance ∧ 0 ≤ second_distance then
          .ok (some (mkHitInfo ray object normalized_dir
            (min first_distance second_distance)))
        else if 0 ≤ first_distance then
          .ok (some (mkHitInfo ray object normalized_dir first_distance))
        else .ok none

/-- Dummy closest-hit record `Ray::first_point_hit_by_ray` starts from: the
first object of the scene list, normal (1,0,0), point (0,0,0) and distance
`f64::MAX`. -/
def initialHit (o : Object) : HitInfo := ⟨o, ⟨0, 0, 0⟩, ⟨1, 0, 0⟩, fMAX⟩

/-- Scan loop of `Ray::first_point_hit_by_ray`: folds over the (already
filtered) object list keeping the closest hit (ties broken by ≤, so a later
equal-distance hit overwrites) and whether anything was hit. -/
def hitScan (F : FloatOps) (ray : Ray) :
    List Object → HitInfo → Bool → Outcome (HitInfo × Bool)
  | [], closest, hasHit => .ok (closest, hasHit)
  | o :: rest, closest, hasHit =>
    match intersect F ray o with
    | .err e => .err e
    | .panicked => .panicked
    | .ok none => hitScan F ray rest closest hasHit
    | .ok (some hit_info) =>
      if hit_info.hit_distance ≤ closest.hit_distance then
        hitScan F ray rest hit_info true
      else hitScan F ray rest closest true

/-- Filter predicate of `first_point_hit_by_ray`: keep the object unless an
ignore object is given whose shape is (PartialEq-)equal to its shape. -/
def keepObject (F : FloatOps) (ignore_object : Option Object) (o : Object) :
    Bool :=
  match ignore_object with
  | some object_to_ignore => !sphereEq F o.shape object_to_ignore.shape
  | none => true

/-- Ray::first_point_hit_by_ray (`geometry/ray.rs`, lines 90-127).  The
unconditional `objects[0]` indexing that builds the dummy closest hit panics
on an empty scene list, hence the `panicked` result in that case. -/
def first_point_hit_by_ray (F : FloatOps) (ray : Ray) (objects : List Object)
    (ignore_object : Option Object) : Outcome (Option HitInfo) :=
  match objects with
  | [] => .panicked
  | o0 :: _ =>
    let objects_to_iter := objects.filter (keepObject F ignore_object)
    (hitScan F ray objects_to_iter (initialHit o0) false).bind fun res =>
      if res.2 then .ok (some res.1) else .ok none

/-- UnitVector from `geometry/vector.rs`: three components expected to form a
unit vector. -/
structure UnitVector where
  x : ℚ
  y : ℚ
  z : ℚ
deriving DecidableEq

/-- Vector from `geometry/vector.rs` (the pre-refactor representation): a
magnitude plus a unit direction. -/
structure Vector where
  norme : ℚ
  direction : UnitVector
deriving DecidableEq

namespace UnitVector

/-- UnitVector::scalar_product: componentwise dot product. -/
def scalar_product (u v : UnitVector) : ℚ := u.x * v.x + u.y * v.y + u.z * v.z

/-- UnitVector::to_vector: wrap with magnitude 1. -/
def to_vector (u : UnitVector) : Vector := ⟨1, u⟩

end UnitVector

namespace Vector

/-- Vector::norme (associated function): magnitude of raw coordinates. -/
def normeOf (F : FloatOps) (x y z : ℚ) : ℚ := F.sqrt (x * x + y * y + z * z)

/-- Vector::normalize (`geometry/vector.rs`, lines 55-66): fails with
`VectorHasNormeZero` when the magnitude is zero, otherwise divides each
component by it. -/
def normalizeRaw (norme : ℚ) (x y z : ℚ) : Outcome UnitVector :=
  if norme = 0 then .err .VectorHasNormeZero
  else .ok ⟨x / norme, y / norme, z / norme⟩

/-- Vector::new_from_coordinates: compute the magnitude, then the (fallible)
unit direction. -/
def new_from_coordinates (F : FloatOps) (x y z : ℚ) : Outcome Vector :=
  (normalizeRaw (normeOf F x y z) x y z).bind fun direction =>
    .ok ⟨normeOf F x y z, direction⟩

/-- Vector::new_from_points: coordinates of destination minus origin. -/
def new_from_points (F : FloatOps) (origin destination : Point) :
    Outcome Vector :=
  new_from_coordinates F (destination.x - origin.x) (destination.y - origin.y)
    (destination.z - origin.z)

/-- Vector::scalar_product: product of the magnitudes times the dot product
of the unit directions. -/
def scalar_product (v w : Vector) : ℚ :=
  v.norme * w.norme * v.direction.scalar_product w.direction

/-- Vector::norme_vec: magnitude recomputed from the scaled components. -/
def norme_vec (F : FloatOps) (v : Vector) : ℚ :=
  normeOf F (v.norme * v.direction.x) (v.norme * v.direction.y)
    (v.norme * v.direction.z)

/-- Vector::angle_with: acos of the scalar product over the product of the
recomputed magnitudes. -/
def angle_with (F : FloatOps) (v w : Vector) : ℚ :=
  F.acos (v.scalar_product w / (v.norme_vec F * w.norme_vec F))

/-- Scalar multiplication `impl Mul<f64> for &Vector`: multiplies only the
stored magnitude, leaving the direction untouched (so a negative factor
yields a vector with negative stored magnitude). -/
def mulScalar (v : Vector) (q : ℚ) : Vector := ⟨v.norme * q, v.direction⟩

end Vector

/-- Sphere::point_is_on_sphere (`geometry/shape.rs`, lines 31-46): the
distance from the point to the center approx-equals the radius
(epsilon = 1e-12; the additional ulps = 2 test is subsumed by exactness). -/
def point_is_on_sphere (F : FloatOps) (s : Sphere) (point : Point) : Bool :=
  let d := point.sub s.center
  let point_distance_to_center := Vector.normeOf F d.x d.y d.z
  decide (|s.radius - point_distance_to_center| ≤ eps)

/-- Sphere::source_is_above_horizon (`geometry/shape.rs`, lines 48-70):
requires the point to be on the sphere (else `PointNotOnSphere`), builds the
outward normal and the point-to-source vector (each of which can fail with
`VectorHasNormeZero`), and compares their scalar product with 0. -/
def source_is_above_horizon (F : FloatOps) (s : Sphere)
    (sphere_point source : Point) : Outcome Bool :=
  if point_is_on_sphere F s sphere_point then
    (Vector.new_from_points F s.center sphere_point).bind fun normal =>
      (Vector.new_from_points F sphere_point source).bind fun point_source_vec =>
        .ok (decide (0 ≤ normal.scalar_product point_source_vec))
  else .err (.PointNotOnSphere sphere_point s)

/-- Ray as consumed by `optic/color.rs` (`diffused_color` calls
`source_ray.direction.to_vector()`, so there the direction field is the
pre-refactor UnitVector). -/
structure RayU where
  origin : Point
  direction : UnitVector
deriving DecidableEq

/-- diffused_color (`optic/color.rs`, lines 125-143): reverses the unit ray
direction (as a Vector with stored magnitude -1), fails with
`SourceNotVisibleFromPoint` when its scalar product with the surface normal
is ≤ 0, otherwise scales the albedo-filtered source color by the cosine of
the angle between the reversed direction and the normal. -/
def diffused_color (F : FloatOps) (source_color : Color)
    (object_diffusion_coefficient : DiffusionCoefficient) (source_ray : RayU)
    (surface_normal_vector : Vector) : Outcome Color :=
  let vector_from_surface_to_source :=
    Vector.mulScalar source_ray.direction.to_vector (-1)
  let normal_ray_scalar_prod :=
    surface_normal_vector.scalar_product vector_from_surface_to_source
  if normal_ray_scalar_prod ≤ 0 then .err .SourceNotVisibleFromPoint
  else
    let angle :=
      vector_from_surface_to_source.angle_with F surface_normal_vector
    .ok ((dcMulColor object_diffusion_coefficient source_color).mulScalar
      (F.cos angle))

/-- Deterministic pseudorandom draw stream: the remaining draws of the
`DistIter<UnitSphere, XorShiftRng, [f64; 3]>` iterator, each draw a point of
the unit sphere.  A finite list models the iterator so that a depleted
stream (`next()` returning `None`) is representable. -/
abbrev RngStream := List (ℚ × ℚ × ℚ)

/-- Ray::cos_weighted_random_ray_unit_sphere (`geometry/ray.rs`,
lines 156-170): draws the next unit-sphere point (failing with
`IteratorDepleted` when the stream is exhausted), adds it to the normalized
surface normal and normalizes the sum into the new ray direction.  Returns
the built ray together with the advanced stream. -/
def cos_weighted_random_ray_unit_sphere (F : FloatOps) (point : Point)
    (normal : Vec3) (unit_sphere_iter : RngStream) :
    Outcome (Ray × RngStream) :=
  match unit_sphere_iter with
  | [] => .err .IteratorDepleted
  | (x, y, z) :: rest =>
    (normal.normalize F).bind fun n =>
      let direction := n.add (Vec3.new_from_coordinates x y z)
      (direction.normalize F).bind fun d =>
        .ok (⟨point, d⟩, rest)

/-- Ray::uniform_weighted_random_ray (`geometry/ray.rs`, lines 197-215):
draws the next unit-sphere point and flips it when it points into the
surface. -/
def uniform_weighted_random_ray (point : Point) (normal : Vec3)
    (unit_sphere_iter : RngStream) : Outcome (Ray × RngStream) :=
  match unit_sphere_iter with
  | [] => .err .IteratorDepleted
  | (x, y, z) :: rest =>
    let direction := Vec3.new_from_coordinates x y z
    if normal.scalar_product direction < 0 then
      .ok (⟨point, Vec3.smul (-1) direction⟩, rest)
    else .ok (⟨point, direction⟩, rest)

/-- GRID_WIDTH constant of `optic/image.rs`. -/
def GRID_WIDTH : ℕ := 1920

/-- GRID_HEIGHT constant of `optic/image.rs`. -/
def GRID_HEIGHT : ℕ := 1080

/-- PIXEL_SIZE constant of `optic/image.rs`. -/
def PIXEL_SIZE : ℚ := 1 / 100

/-- EYE_POINT constant of `optic/image.rs`. -/
def EYE_POINT : Point := ⟨0, 0, -10⟩

/-- GRID_CENTER_POINT constant of `optic/image.rs`. -/
def GRID_CENTER_POINT : Point := ⟨0, 0, 0⟩

/-- get_background_color (`optic/image.rs`, lines 44-46): the fixed
background color, black.  (The src snapshot passes float literals to
`Color::new`; the value is pure black either way.) -/
def get_background_color : Outcome Color := .ok ⟨0, 0, 0⟩

/-- Grid::pixel_point_selection: the pixel center point replicated once per
sample. -/
def pixel_point_selection (pixel_width_index pixel_height_index : ℕ)
    (number_of_points_per_pixel : ℕ) : List Point :=
  let pixel_center_point_x :=
    ((1 : ℚ) / 2 + pixel_width_index - (GRID_WIDTH / 2 : ℕ)) * PIXEL_SIZE +
      GRID_CENTER_POINT.x
  let pixel_center_point_y :=
    ((1 : ℚ) / 2 + pixel_height_index - (GRID_HEIGHT / 2 : ℕ)) * PIXEL_SIZE +
      GRID_CENTER_POINT.y
  List.replicate number_of_points_per_pixel
    ⟨pixel_center_point_x, pixel_center_point_y, 0⟩

/-- Grid::ray_eye_pixel_point: eye-to-sample-point vectors. -/
def ray_eye_pixel_point (pixel_width_index pixel_height_index : ℕ)
    (number_of_points_per_pixel : ℕ) : List Vec3 :=
  (pixel_point_selection pixel_width_index pixel_height_index
    number_of_points_per_pixel).map (Vec3.new_from_points EYE_POINT)

/-- Per-sample bounce loop of Grid::trace_pixel_color (`optic/image.rs`,
lines 116-155).  `fuel` is the number of loop iterations still allowed; the
source's `for _ in 0..=number_of_bounces` enters the loop with
`number_of_bounces + 1`.  State: current ray, throughput (`ray_color`),
accumulated light (`ray_light`), last hit object, draw stream.  On a miss
the source tests the local `ray_has_hit` flag — declared `false` and never
updated — so both the first-bounce and the later-bounce miss overwrite
`ray_light` with the background color before breaking; that dead flag is
kept verbatim. -/
def bounce_loop (F : FloatOps) (objects : List Object) :
    ℕ → Ray → Color → Color → Option Object → RngStream →
    Outcome (Color × RngStream)
  | 0, _, _, ray_light, _, stream => .ok (ray_light, stream)
  | fuel + 1, ray, ray_color, ray_light, last_hit_sphere, stream =>
    match first_point_hit_by_ray F ray objects last_hit_sphere with
    | .err e => .err e
    | .panicked => .panicked
    | .ok none =>
      let ray_has_hit := false
      if ray_has_hit then .ok (ray_light, stream)
      else get_background_color.bind fun bg => .ok (bg, stream)
    | .ok (some hit_info) =>
      match cos_weighted_random_ray_unit_sphere F hit_info.point_hit
          hit_info.normal stream with
      | .err e => .err e
      | .panicked => .panicked
      | .ok (ray2, stream2) =>
        let light_emitted_by_hit_object :=
          hit_info.object.material.emission_color.mulScalar
            hit_info.object.material.emission_strength
        let ray_light2 :=
          ray_light.add (colorMulColor light_emitted_by_hit_object ray_color)
        let ray_color2 :=
          dcMulColor hit_info.object.material.diffusion_coefficients ray_color
        if ray_color2 = BLACK then .ok (ray_light2, stream2)
        else
          bounce_loop F objects fuel ray2 ray_color2 ray_light2
            (some hit_info.object) stream2

/-- Per-pixel sample loop of Grid::trace_pixel_color: one bounce loop per
eye vector, summing every sample's light into the running total. -/
def trace_samples (F : FloatOps) (objects : List Object)
    (number_of_bounces : ℕ) :
    List Vec3 → Color → RngStream → Outcome (Color × RngStream)
  | [], total_ray_light, stream => .ok (total_ray_light, stream)
  | vector :: rest, total_ray_light, stream =>
    (bounce_loop F objects (number_of_bounces + 1) ⟨EYE_POINT, vector⟩
        WHITE BLACK none stream).bind fun res =>
      trace_samples F objects number_of_bounces rest
        (total_ray_light.add res.1) res.2

/-- Grid::trace_pixel_color (`optic/image.rs`, lines 91-159): runs the
bounce loop for every sample of the pixel and divides the summed light by
the sample count (the trailing `new_from_color()` conversion, absent from
the src snapshot, is modelled as the identity wrapped in `ok`). -/
def trace_pixel_color (F : FloatOps) (pixel_height_index pixel_width_index : ℕ)
    (number_of_points_per_pixel : ℕ) (number_of_bounces : ℕ)
    (objects : List Object) (stream : RngStream) :
    Outcome (Color × RngStream) :=
  let vector_eye_pixel :=
    ray_eye_pixel_point pixel_width_index pixel_height_index
      number_of_points_per_pixel
  (trace_samples F objects number_of_bounces vector_eye_pixel BLACK
      stream).bind fun res =>
    .ok (res.1.mulScalar (1 / (number_of_points_per_pixel : ℚ)), res.2)

/-- Grid from `optic/image.rs`: a width, a height and the color raster. -/
structure Grid where
  width : ℕ
  height : ℕ
  colors : List (List Color)
deriving DecidableEq

/-- Seed hardcoded in Grid::make_image. -/
def MAKE_IMAGE_SEED : ℕ := 51468412518

/-- Row loop of Grid::make_image: computes `remaining` pixel colors of row
`h` starting at column `w`, threading the draw stream. -/
def make_image_row (F : FloatOps) (objects : List Object)
    (number_of_points_per_pixel number_of_bounces : ℕ) (h : ℕ) :
    ℕ → ℕ → RngStream → Outcome (List Color × RngStream)
  | _, 0, stream => .ok ([], stream)
  | w, remaining + 1, stream =>
    (trace_pixel_color F h w number_of_points_per_pixel number_of_bounces
        objects stream).bind fun res =>
      (make_image_row F objects number_of_points_per_pixel number_of_bounces
          h (w + 1) remaining res.2).bind fun rowRes =>
        .ok (res.1 :: rowRes.1, rowRes.2)

/-- Outer pixel loop of Grid::make_image: computes `remaining` rows starting
at row `h`, each of `width` pixels, threading the draw stream. -/
def make_image_rows (F : FloatOps) (objects : List Object)
    (number_of_points_per_pixel number_of_bounces width : ℕ) :
    ℕ → ℕ → RngStream → Outcome (List (List Color) × RngStream)
  | _, 0, stream => .ok ([], stream)
  | h, remaining + 1, stream =>
    (make_image_row F objects number_of_points_per_pixel number_of_bounces
        h 0 width stream).bind fun rowRes =>
      (make_image_rows F objects number_of_points_per_pixel number_of_bounces
          width (h + 1) remaining rowRes.2).bind fun gridRes =>
        .ok (rowRes.1 :: gridRes.1, gridRes.2)

/-- Grid::make_image (`optic/image.rs`, lines 161-185).  Modelled from the
spec: the external `XorShiftRng::seed_from_u64` + `UnitSphere.sample_iter`
pipeline (crates `rand_xorshift` / `rand_distr`, not part of this
repository) is abstracted as a function `seedStream` from seeds to draw
streams; `make_image` derives its single stream from the hardcoded seed and
threads it through every pixel, writing each raster cell exactly once (the
source overwrites every cell of the pre-allocated raster, which the
generated raster reproduces). -/
def make_image (F : FloatOps) (seedStream : ℕ → RngStream)
    (number_of_points_per_pixel number_of_bounces : ℕ)
    (objects : List Object) (grid : Grid) : Outcome Grid :=
  let unit_disc_iter := seedStream MAKE_IMAGE_SEED
  (make_image_rows F objects number_of_points_per_pixel number_of_bounces
      grid.width 0 grid.height unit_disc_iter).bind fun res =>
    .ok ⟨grid.width, grid.height, res.1⟩

/-- Bound observer used to state C4 within f64 range: the hit distance
`intersect` computes for this object (when it hits) does not exceed
`f64::MAX`.  True of every f64-representable scene, since the source
computes finite hit distances. -/
def hit_dist_within_fmax (F : FloatOps) (ray : Ray) (o : Object) : Bool :=
  match intersect F ray o with
  | .ok (some h) => decide (h.hit_distance ≤ fMAX)
  | _ => true

/-- Concrete unit sphere at the origin (emissive white, unit albedo). -/
def objUnit : Object := ⟨⟨⟨0, 0, 0⟩, 1⟩, ⟨WHITE, 1, ⟨1, 1, 1⟩, 0⟩⟩

/-- Concrete ray from the origin along the positive x axis. -/
def rayX : Ray := ⟨⟨0, 0, 0⟩, ⟨1, 0, 0⟩⟩

/-- Concrete emissive white unit-albedo sphere at (5,0,0), hit by `rayX` at
distance 4. -/
def objDemo : Object := ⟨⟨⟨5, 0, 0⟩, 1⟩, ⟨WHITE, 1, ⟨1, 1, 1⟩, 0⟩⟩

/-- Concrete non-emissive sphere at (0,0,50), not hit by `rayX`. -/
def objFar : Object := ⟨⟨⟨0, 0, 50⟩, 1⟩, ⟨BLACK, 0, ⟨1, 1, 1⟩, 0⟩⟩

/-- HitInfo produced by `intersect qF rayX objDemo`. -/
def hitDemo : HitInfo := ⟨objDemo, ⟨4, 0, 0⟩, ⟨-1, 0, 0⟩, 4⟩

/-- Concrete sphere tangent to the line of `rayX` but entirely behind its
origin (center (-5,1,0), radius 1). -/
def objTan : Object := ⟨⟨⟨-5, 1, 0⟩, 1⟩, ⟨BLACK, 0, ⟨1, 1, 1⟩, 0⟩⟩

/-- HitInfo produced by `intersect qF rayX objTan`: the tangent point behind
the origin, at negative hit distance -5. -/
def hitTan : HitInfo := ⟨objTan, ⟨-5, 0, 0⟩, ⟨0, -1, 0⟩, -5⟩

/-- Concrete degenerate sphere: radius 0. -/
def sDeg : Sphere := ⟨⟨0, 0, 0⟩, 0⟩

/-- Concrete well-formed sphere of radius 5 at the origin. -/
def sW : Sphere := ⟨⟨0, 0, 0⟩, 5⟩

/-- Simp lemma: bind on a successful outcome applies the continuation. -/
@[simp]
theorem Outcome.bind_ok {α β : Type} (a : α) (f : α → Outcome β) :
    Outcome.bind (.ok a) f = f a := rfl

/-- Simp lemma: bind propagates errors. -/
@[simp]
theorem Outcome.bind_err {α β : Type} (e : RayTracingError)
    (f : α → Outcome β) : Outcome.bind (.err e) f = .err e := rfl

/-- Simp lemma: bind propagates panics. -/
@[simp]
theorem Outcome.bind_panicked {α β : Type} (f : α → Outcome β) :
    Outcome.bind .panicked f = .panicked := rfl

/-- Simp lemma: the sqrt field of the concrete FloatOps instance. -/
@[simp]
theorem qF_sqrt : qF.sqrt = qsqrt := rfl

/-- Evaluation lemma: square root of 0 under `qF`. -/
@[simp]
theorem qsqrt_zero : qsqrt 0 = 0 := by
  norm_num [qsqrt]

/-- Evaluation lemma: square root of 1 under `qF`. -/
@[simp]
theorem qsqrt_one : qsqrt 1 = 1 := by
  norm_num [qsqrt]

/-- Evaluation lemma: `qsqrt` truncates the non-square 2 to 1 (only the
non-zeroness of this value matters to the code paths evaluated below). -/
@[simp]
theorem qsqrt_two : qsqrt 2 = 1 := by
  norm_num [qsqrt, show Int.toNat (2 : ℤ) = 2 from rfl]

/-- Evaluation lemma: square root of 4 under `qF`. -/
@[simp]
theorem qsqrt_four : qsqrt 4 = 2 := by
  norm_num [qsqrt, show Int.toNat (4 : ℤ) = 4 from rfl]

/-- Evaluation lemma: square root of 25 under `qF`. -/
@[simp]
theorem qsqrt_twentyfive : qsqrt 25 = 5 := by
  norm_num [qsqrt, show Int.toNat (25 : ℤ) = 25 from rfl]

/-- Evaluation lemma: `qsqrt` truncates 2525 (the squared distance between
the centers of `objDemo` and `objFar`) to 50; only the fact that the result
exceeds eps matters below. -/
@[simp]
theorem qsqrt_2525 : qsqrt 2525 = 50 := by
  norm_num [qsqrt, show Int.toNat (2525 : ℤ) = 2525 from rfl]

/-- C1: for `rayX` (origin (0,0,0) inside the unit sphere `objUnit`) the
discriminant is 4 > eps and the second root (-b + √delta)/2 equals 1 ≥ 0,
so the claim requires `Some` with hit distance 1; the code returns `None`
(its two-root else-branch treats "first root negative" as "both roots
negative"). -/
theorem C1_intersect_origin_inside_sphere_returns_none :
    Vec3.normalize qF rayX.direction = .ok ⟨1, 0, 0⟩ ∧
    quad_delta rayX objUnit ⟨1, 0, 0⟩ = 4 ∧
    eps < quad_delta rayX objUnit ⟨1, 0, 0⟩ ∧
    (-quad_b rayX objUnit ⟨1, 0, 0⟩ +
        qF.sqrt (quad_delta rayX objUnit ⟨1, 0, 0⟩)) / 2 = 1 ∧
    intersect qF rayX objUnit = .ok none := by
  norm_num [intersect, quad_b, quad_c, quad_delta, Vec3.normalize, Vec3.norme,
    Vec3.scalar_product, Vec3.new_from_points, rayX, objUnit, eps]

/-- C2: one sample against the lone emissive sphere `objDemo`.  With one
loop iteration the sample's accumulated light is white; allowing a second
iteration, the miss (the only object is the excluded last-hit) overwrites
the accumulated white with the background color black instead of leaving it
unchanged, because the `ray_has_hit` flag is never set. -/
theorem C2_later_bounce_miss_overwrites_light :
    bounce_loop qF [objDemo] 1 rayX WHITE BLACK none [(0, 1, 0)] =
      .ok (WHITE, []) ∧
    bounce_loop qF [objDemo] 2 rayX WHITE BLACK none [(0, 1, 0)] =
      .ok (BLACK, []) ∧
    get_background_color = .ok BLACK := by
  norm_num [bounce_loop, first_point_hit_by_ray, keepObject, hitScan,
    initialHit, intersect, quad_b, quad_c, quad_delta, mkHitInfo,
    Vec3.normalize, Vec3.norme, Vec3.scalar_product, Vec3.new_from_points,
    Vec3.new_from_coordinates, Vec3.smul, Vec3.add, Point.addVec, sphereEq,
    pointEq, cos_weighted_random_ray_unit_sphere, Color.add, Color.mulScalar,
    dcMulColor, colorMulColor, toU8, get_background_color, BLACK, WHITE,
    objDemo, rayX, eps, fMAX]

/-- C3 counterexample: with `number_of_bounces = 0` the loop (entered with
fuel 0 + 1, matching the source's inclusive range) still resolves a hit and
consumes one random draw, so the number of draws is not bounded by
`number_of_bounces = 0`. -/
theorem C3_zero_bounce_budget_still_draws :
    bounce_loop qF [objDemo] (0 + 1) rayX WHITE BLACK none [(0, 1, 0)] =
      .ok (WHITE, []) ∧
    ¬(([(0, 1, 0)] : RngStream).length - ([] : RngStream).length ≤ 0) := by
  norm_num [bounce_loop, first_point_hit_by_ray, keepObject, hitScan,
    initialHit, intersect, quad_b, quad_c, quad_delta, mkHitInfo,
    Vec3.normalize, Vec3.norme, Vec3.scalar_product, Vec3.new_from_points,
    Vec3.new_from_coordinates, Vec3.smul, Vec3.add, Point.addVec, sphereEq,
    pointEq, cos_weighted_random_ray_unit_sphere, Color.add, Color.mulScalar,
    dcMulColor, colorMulColor, toU8, get_background_color, BLACK, WHITE,
    objDemo, rayX, eps, fMAX]

/-- C5 counterexample: on the empty objects list `first_point_hit_by_ray`
panics (out-of-bounds `objects[0]`) instead of returning no hit. -/
theorem C5_empty_objects_list_panics :
    first_point_hit_by_ray qF rayX [] none = .panicked ∧
    first_point_hit_by_ray qF rayX [] none ≠ .ok none := by
  norm_num [first_point_hit_by_ray]
  exact nofun

/-- C6 counterexample: the degenerate sphere of radius 0 with surface point
equal to its center satisfies the on-sphere precondition, yet the horizon
test fails with `VectorHasNormeZero` (the outward normal cannot be built)
instead of returning the claimed dot-product boolean (which would be true
here, the dot product being 0). -/
theorem C6_degenerate_on_sphere_point_errors :
    point_is_on_sphere qF sDeg ⟨0, 0, 0⟩ = true ∧
    source_is_above_horizon qF sDeg ⟨0, 0, 0⟩ ⟨1, 0, 0⟩ =
      .err .VectorHasNormeZero ∧
    source_is_above_horizon qF sDeg ⟨0, 0, 0⟩ ⟨1, 0, 0⟩ ≠ .ok true := by
  norm_num [source_is_above_horizon, point_is_on_sphere, Vector.new_from_points,
    Vector.new_from_coordinates, Vector.normalizeRaw, Vector.normeOf,
    Point.sub, sDeg, eps]
  exact nofun

/-- Helper: one successful cosine-weighted draw consumes exactly one stream
element. -/
theorem cos_weighted_consumes_one (F : FloatOps) (p : Point) (n : Vec3)
    (s : RngStream) (r : Ray) (s2 : RngStream)
    (h : cos_weighted_random_ray_unit_sphere F p n s = .ok (r, s2)) :
    s.length = s2.length + 1 := by
  match s with
  | [] => simp [cos_weighted_random_ray_unit_sphere] at h
  | (x, y, z) :: rest =>
    unfold cos_weighted_random_ray_unit_sphere at h
    cases h1 : Vec3.normalize F n with
    | err e => rw [h1] at h; simp at h
    | panicked => rw [h1] at h; simp at h
    | ok u =>
      rw [h1] at h
      simp only [Outcome.bind_ok] at h
      cases h2 : Vec3.normalize F (u.add (Vec3.new_from_coordinates x y z)) with
      | err e => rw [h2] at h; simp at h
      | panicked => rw [h2] at h; simp at h
      | ok d =>
        rw [h2] at h
        simp only [Outcome.bind_ok, Outcome.ok.injEq, Prod.mk.injEq] at h
        rw [← h.2]
        simp

/-- Helper: the bounce loop with `fuel` allowed iterations consumes at most
`fuel` draws from the stream (each iteration draws at most once). -/
theorem bounce_loop_length_bound (F : FloatOps) (objects : List Object) :
    ∀ (fuel : ℕ) (ray : Ray) (rc rl : Color) (lh : Option Object)
      (stream : RngStream) (c : Color) (s2 : RngStream),
      bounce_loop F objects fuel ray rc rl lh stream = .ok (c, s2) →
      stream.length ≤ s2.length + fuel := by
  intro fuel
  induction fuel with
  | zero =>
    intro ray rc rl lh stream c s2 h
    unfold bounce_loop at h
    simp only [Outcome.ok.injEq, Prod.mk.injEq] at h
    obtain ⟨-, h2⟩ := h
    subst h2
    omega
  | succ nfuel ih =>
    intro ray rc rl lh stream c s2 h
    unfold bounce_loop at h
    split at h
    · simp at h
    · simp at h
    · simp [get_background_color] at h
      obtain ⟨-, h2⟩ := h
      subst h2
      omega
    · rename_i hit_info heq
      split at h
      · simp at h
      · simp at h
      · rename_i ray2 stream2 heq2
        have hlen := cos_weighted_consumes_one F hit_info.point_hit
          hit_info.normal stream ray2 stream2 heq2
        simp only [] at h
        split at h
        · simp only [Outcome.ok.injEq, Prod.mk.injEq] at h
          obtain ⟨-, h2⟩ := h
          subst h2
          omega
        · have hrec := ih ray2 _ _ (some hit_info.object) stream2 c s2 h
          omega

/-- C3 (amended): entered as `trace_pixel_color` enters it (the source's
inclusive `for _ in 0..=number_of_bounces`, i.e. fuel number_of_bounces + 1,
throughput white, light black, no last-hit), a sample's bounce loop performs
at most `number_of_bounces + 1` iterations and hence consumes at most
`number_of_bounces + 1` random draws from the stream (one nearest-hit
resolution and at most one draw per iteration). -/
theorem C3_bounce_loop_draw_bound (F : FloatOps) (objects : List Object)
    (number_of_bounces : ℕ) (ray : Ray) (stream : RngStream) (c : Color)
    (s2 : RngStream)
    (h : bounce_loop F objects (number_of_bounces + 1) ray WHITE BLACK none
      stream = .ok (c, s2)) :
    stream.length - s2.length ≤ number_of_bounces + 1 := by
  have := bounce_loop_length_bound F objects (number_of_bounces + 1) ray
    WHITE BLACK none stream c s2 h
  omega

/-- C3 witness: concrete run of the bounce loop with a zero bounce budget:
exactly one draw is consumed, within the amended bound 0 + 1. -/
theorem C3_bounce_loop_draw_bound_witness :
    bounce_loop qF [objDemo] (0 + 1) rayX WHITE BLACK none [(0, 1, 0)] =
      .ok (WHITE, []) ∧
    ([(0, 1, 0)] : RngStream).length - ([] : RngStream).length ≤ 0 + 1 := by
  have hrun : bounce_loop qF [objDemo] (0 + 1) rayX WHITE BLACK none
      [(0, 1, 0)] = .ok (WHITE, []) := by
    norm_num [bounce_loop, first_point_hit_by_ray, keepObject, hitScan,
      initialHit, intersect, quad_b, quad_c, quad_delta, mkHitInfo,
      Vec3.normalize, Vec3.norme, Vec3.scalar_product, Vec3.new_from_points,
      Vec3.new_from_coordinates, Vec3.smul, Vec3.add, Point.addVec, sphereEq,
      pointEq, cos_weighted_random_ray_unit_sphere, Color.add, Color.mulScalar,
      dcMulColor, colorMulColor, toU8, get_background_color, BLACK, WHITE,
      objDemo, rayX, eps, fMAX]
  exact ⟨hrun, C3_bounce_loop_draw_bound qF [objDemo] 0 rayX [(0, 1, 0)]
    WHITE [] hrun⟩

/-- Helper: when no scanned object intersects, the scan loop leaves its
state untouched. -/
theorem hitScan_all_miss (F : FloatOps) (ray : Ray) :
    ∀ (l : List Object) (closest : HitInfo) (hasHit : Bool),
      (∀ o ∈ l, intersect F ray o = .ok none) →
      hitScan F ray l closest hasHit = .ok (closest, hasHit)
  | [], _, _, _ => rfl
  | o :: rest, closest, hasHit, h => by
    have ho := h o (List.mem_cons_self o rest)
    unfold hitScan
    rw [ho]
    exact hitScan_all_miss F ray rest closest hasHit
      (fun o2 ho2 => h o2 (List.mem_cons_of_mem _ ho2))

/-- C5 (amended): on a non-empty objects list, when no object intersects the
ray the scan returns no hit (`ok none`) without erroring or panicking; the
empty-list case is excluded because the source's `objects[0]` initialization
panics there (see the counterexample). -/
theorem C5_nonempty_scan_miss_returns_none (F : FloatOps) (ray : Ray)
    (o0 : Object) (rest : List Object) (ignore_object : Option Object)
    (h : ∀ o ∈ o0 :: rest, intersect F ray o = .ok none) :
    first_point_hit_by_ray F ray (o0 :: rest) ignore_object = .ok none := by
  unfold first_point_hit_by_ray
  simp only []
  rw [hitScan_all_miss F ray _ (initialHit o0) false
    (fun o ho => h o (List.mem_of_mem_filter ho))]
  rfl

/-- C5 witness: a concrete non-empty scene missed by the ray returns no hit. -/
theorem C5_nonempty_scan_miss_returns_none_witness :
    (∀ o ∈ [objFar], intersect qF rayX o = .ok none) ∧
    first_point_hit_by_ray qF rayX [objFar] none = .ok none := by
  have hmiss : ∀ o ∈ [objFar], intersect qF rayX o = .ok none := by
    intro o ho
    simp only [List.mem_singleton] at ho
    subst ho
    norm_num [intersect, quad_b, quad_c, quad_delta, Vec3.normalize,
      Vec3.norme, Vec3.scalar_product, Vec3.new_from_points, objFar, rayX,
      eps]
  exact ⟨hmiss, C5_nonempty_scan_miss_returns_none qF rayX objFar [] none
    hmiss⟩

/-- Helper: a successful intersection reports the queried object itself in
its HitInfo. -/
theorem intersect_ok_some_object (F : FloatOps) (ray : Ray) (o : Object)
    (h : HitInfo) (hh : intersect F ray o = .ok (some h)) : h.object = o := by
  unfold intersect at hh
  cases hn : Vec3.normalize F ray.direction with
  | err e => rw [hn] at hh; simp at hh
  | panicked => rw [hn] at hh; simp at hh
  | ok u =>
    rw [hn] at hh
    simp only [Outcome.bind_ok] at hh
    split at hh
    · simp at hh
    · split at hh
      · simp only [Outcome.ok.injEq, Option.some.injEq] at hh
        subst hh
        rfl
      · split at hh
        · simp only [Outcome.ok.injEq, Option.some.injEq] at hh
          subst hh
          rfl
        · split at hh
          · simp only [Outcome.ok.injEq, Option.some.injEq] at hh
            subst hh
            rfl
          · simp at hh

/-- Helper: invariant of the scan loop.  If every scanned object satisfies
`P` and has its hit distance within `f64::MAX`, and the incoming state
satisfies the invariant (a recorded hit satisfies `P`; an unrecorded state
still carries the sentinel distance), then a successful scan reporting a hit
yields an object satisfying `P`. -/
theorem hitScan_invariant (F : FloatOps) (ray : Ray) (P : Object → Prop) :
    ∀ (l : List Object) (closest : HitInfo) (hasHit : Bool) (hi : HitInfo),
      (∀ o ∈ l, P o) →
      (∀ o ∈ l, hit_dist_within_fmax F ray o = true) →
      (hasHit = true → P closest.object) →
      (hasHit = false → closest.hit_distance = fMAX) →
      hitScan F ray l closest hasHit = .ok (hi, true) →
      P hi.object := by
  intro l
  induction l with
  | nil =>
    intro closest hasHit hi _ _ hinv _ hrun
    unfold hitScan at hrun
    simp only [Outcome.ok.injEq, Prod.mk.injEq] at hrun
    rw [← hrun.1]
    exact hinv hrun.2
  | cons o rest ih =>
    intro closest hasHit hi hP hB hinv hsent hrun
    have hPo := hP o (List.mem_cons_self o rest)
    have hBo := hB o (List.mem_cons_self o rest)
    have hPrest := fun o2 ho2 => hP o2 (List.mem_cons_of_mem _ ho2)
    have hBrest := fun o2 ho2 => hB o2 (List.mem_cons_of_mem _ ho2)
    unfold hitScan at hrun
    split at hrun
    · simp at hrun
    · simp at hrun
    · exact ih closest hasHit hi hPrest hBrest hinv hsent hrun
    · rename_i hit_info heq
      have hobj := intersect_ok_some_object F ray o hit_info heq
      have hdist : hit_info.hit_distance ≤ fMAX := by
        unfold hit_dist_within_fmax at hBo
        rw [heq] at hBo
        simpa using hBo
      split at hrun
      · exact ih hit_info true hi hPrest hBrest
          (fun _ => hobj ▸ hPo) (fun hfalse => by cases hfalse) hrun
      · rename_i hgt
        cases hcase : hasHit with
        | true =>
          exact ih closest true hi hPrest hBrest
            (fun _ => hinv hcase) (fun hfalse => by cases hfalse) hrun
        | false =>
          exact absurd (hsent hcase ▸ hdist) hgt

/-- C4: `first_point_hit_by_ray` never returns a hit whose object's shape is
(PartialEq-)equal to the ignored object's shape, provided every per-object
hit distance stays within `f64::MAX` (automatic for f64-representable
scenes; the exact-rational model must assume it because the source's
sentinel initial distance is `f64::MAX` itself). -/
theorem C4_ignored_shape_never_returned (F : FloatOps) (ray : Ray)
    (objects : List Object) (ignore_object : Object) (hi : HitInfo)
    (hbound : ∀ o ∈ objects, hit_dist_within_fmax F ray o = true)
    (hres : first_point_hit_by_ray F ray objects (some ignore_object) =
      .ok (some hi)) :
    sphereEq F hi.object.shape ignore_object.shape = false := by
  match objects with
  | [] =>
    unfold first_point_hit_by_ray at hres
    simp at hres
  | o0 :: rest =>
    unfold first_point_hit_by_ray at hres
    simp only [] at hres
    cases hsc : hitScan F ray
        (List.filter (keepObject F (some ignore_object)) (o0 :: rest))
        (initialHit o0) false with
    | err e => rw [hsc] at hres; simp at hres
    | panicked => rw [hsc] at hres; simp at hres
    | ok res =>
      rw [hsc] at hres
      simp only [Outcome.bind_ok] at hres
      obtain ⟨r1, r2⟩ := res
      cases r2 with
      | false => simp at hres
      | true =>
        simp only [if_pos, Outcome.ok.injEq, Option.some.injEq] at hres
        subst hres
        refine hitScan_invariant F ray
          (fun o => sphereEq F o.shape ignore_object.shape = false) _
          (initialHit o0) false r1 ?_ ?_ (fun htrue => by cases htrue)
          (fun _ => rfl) hsc
        · intro o ho
          have := List.of_mem_filter ho
          unfold keepObject at this
          simpa using this
        · intro o ho
          exact hbound o (List.mem_of_mem_filter ho)

/-- C4 witness: scanning `[objFar, objDemo]` while ignoring `objFar` returns
the hit on `objDemo`, whose shape differs from the ignored shape. -/
theorem C4_ignored_shape_never_returned_witness :
    (∀ o ∈ [objFar, objDemo], hit_dist_within_fmax qF rayX o = true) ∧
    first_point_hit_by_ray qF rayX [objFar, objDemo] (some objFar) =
      .ok (some hitDemo) ∧
    sphereEq qF hitDemo.object.shape objFar.shape = false := by
  have hbound : ∀ o ∈ [objFar, objDemo],
      hit_dist_within_fmax qF rayX o = true := by
    intro o ho
    simp only [List.mem_cons, List.mem_singleton, List.not_mem_nil,
      or_false] at ho
    rcases ho with rfl | rfl <;>
      norm_num [hit_dist_within_fmax, intersect, quad_b, quad_c, quad_delta,
        mkHitInfo, Vec3.normalize, Vec3.norme, Vec3.scalar_product,
        Vec3.new_from_points, Vec3.smul, Point.addVec, objFar, objDemo, rayX,
        eps, fMAX]
  have hres : first_point_hit_by_ray qF rayX [objFar, objDemo]
      (some objFar) = .ok (some hitDemo) := by
    norm_num [first_point_hit_by_ray, keepObject, hitScan, initialHit,
      intersect, quad_b, quad_c, quad_delta, mkHitInfo, Vec3.normalize,
      Vec3.norme, Vec3.scalar_product, Vec3.new_from_points, Vec3.smul,
      Point.addVec, sphereEq, pointEq, objFar, objDemo, rayX, hitDemo, eps,
      fMAX]
  exact ⟨hbound, hres, C4_ignored_shape_never_returned qF rayX
    [objFar, objDemo] objFar hitDemo hbound hres⟩

/-- C9: whenever the direction normalizes and the discriminant lies within
[-eps, eps], `intersect` takes the tangent branch and reports a hit at
distance -b/2 unconditionally — no non-negativity check is performed on that
root, unlike the two-root branch. -/
theorem C9_tangent_branch_skips_sign_check (F : FloatOps) (ray : Ray)
    (object : Object) (u : Vec3)
    (hu : Vec3.normalize F ray.direction = .ok u)
    (h1 : -eps ≤ quad_delta ray object u)
    (h2 : quad_delta ray object u ≤ eps) :
    intersect F ray object =
      .ok (some (mkHitInfo ray object u (-quad_b ray object u / 2))) := by
  unfold intersect
  rw [hu]
  simp only [Outcome.bind_ok]
  rw [if_neg (by linarith), if_pos ⟨h1, h2⟩]

/-- C9 witness: the sphere `objTan` is tangent to the line of `rayX` behind
its origin; `intersect` still reports the hit, at the negative distance -5. -/
theorem C9_tangent_branch_skips_sign_check_witness :
    Vec3.normalize qF rayX.direction = .ok ⟨1, 0, 0⟩ ∧
    -eps ≤ quad_delta rayX objTan ⟨1, 0, 0⟩ ∧
    quad_delta rayX objTan ⟨1, 0, 0⟩ ≤ eps ∧
    intersect qF rayX objTan =
      .ok (some (mkHitInfo rayX objTan ⟨1, 0, 0⟩
        (-quad_b rayX objTan ⟨1, 0, 0⟩ / 2))) ∧
    (mkHitInfo rayX objTan ⟨1, 0, 0⟩
      (-quad_b rayX objTan ⟨1, 0, 0⟩ / 2)).hit_distance < 0 := by
  have hu : Vec3.normalize qF rayX.direction = .ok ⟨1, 0, 0⟩ := by
    norm_num [Vec3.normalize, Vec3.norme, Vec3.scalar_product, rayX]
  have h1 : -eps ≤ quad_delta rayX objTan ⟨1, 0, 0⟩ := by
    norm_num [quad_delta, quad_b, quad_c, Vec3.scalar_product,
      Vec3.new_from_points, rayX, objTan, eps]
  have h2 : quad_delta rayX objTan ⟨1, 0, 0⟩ ≤ eps := by
    norm_num [quad_delta, quad_b, quad_c, Vec3.scalar_product,
      Vec3.new_from_points, rayX, objTan, eps]
  refine ⟨hu, h1, h2,
    C9_tangent_branch_skips_sign_check qF rayX objTan ⟨1, 0, 0⟩ hu h1 h2, ?_⟩
  norm_num [mkHitInfo, quad_b, Vec3.scalar_product, Vec3.new_from_points,
    rayX, objTan]

/-- Helper: `qsqrt` is nonzero on positive rationals (the property of f64
sqrt the C10 theorem assumes of its FloatOps argument). -/
theorem qsqrt_ne_zero_of_pos (q : ℚ) (hq : 0 < q) : qsqrt q ≠ 0 := by
  unfold qsqrt
  have hnum : 0 < q.num := Rat.num_pos.mpr hq
  have htn : q.num.toNat ≠ 0 := by omega
  have hs : Nat.sqrt q.num.toNat ≠ 0 := fun hzero =>
    htn (Nat.sqrt_eq_zero.mp hzero)
  exact_mod_cast hs

/-- Helper: the self dot product of a flat vector is positive unless the
vector is componentwise zero. -/
theorem scalar_product_self_pos (v : Vec3) (h : v ≠ ⟨0, 0, 0⟩) :
    0 < v.scalar_product v := by
  obtain ⟨vx, vy, vz⟩ := v
  unfold Vec3.scalar_product
  by_contra hnot
  push_neg at hnot
  apply h
  have h1 := mul_self_nonneg vx
  have h2 := mul_self_nonneg vy
  have h3 := mul_self_nonneg vz
  have hx0 : vx = 0 :=
    mul_self_eq_zero.mp (le_antisymm (by linarith) (mul_self_nonneg vx))
  have hy0 : vy = 0 :=
    mul_self_eq_zero.mp (le_antisymm (by linarith) (mul_self_nonneg vy))
  have hz0 : vz = 0 :=
    mul_self_eq_zero.mp (le_antisymm (by linarith) (mul_self_nonneg vz))
  rw [hx0, hy0, hz0]

/-- C10: when a successful draw is available and the surface normal
normalizes to `u`, the cosine-weighted sampler fails with the
zero-magnitude-vector error exactly when the drawn unit-sphere point is the
antipode -u of the normalized normal (the sum cannot be normalized); for any
other drawn point it returns the ray from the hit point whose direction is
the normalized sum of `u` and the drawn point, consuming one draw.  The two
sqrt hypotheses are the facts about f64 sqrt the branch analysis needs
(sqrt 0 = 0 and positivity on positive inputs). -/
theorem C10_cos_weighted_antipode_spec (F : FloatOps) (point : Point)
    (normal : Vec3) (u : Vec3) (x y z : ℚ) (rest : RngStream)
    (hu : Vec3.normalize F normal = .ok u)
    (hz : F.sqrt 0 = 0)
    (hpos : ∀ q : ℚ, 0 < q → F.sqrt q ≠ 0) :
    ((⟨x, y, z⟩ : Vec3) = Vec3.smul (-1) u →
      cos_weighted_random_ray_unit_sphere F point normal ((x, y, z) :: rest) =
        .err .VectorHasNormeZero) ∧
    ((⟨x, y, z⟩ : Vec3) ≠ Vec3.smul (-1) u →
      ∃ d, Vec3.normalize F (u.add ⟨x, y, z⟩) = .ok d ∧
        cos_weighted_random_ray_unit_sphere F point normal
          ((x, y, z) :: rest) = .ok (⟨point, d⟩, rest)) := by
  constructor
  · intro hxyz
    unfold cos_weighted_random_ray_unit_sphere
    rw [hu]
    simp only [Outcome.bind_ok, Vec3.new_from_coordinates]
    have hsum : u.add ⟨x, y, z⟩ = ⟨0, 0, 0⟩ := by
      have hx : x = -1 * u.x := congrArg Vec3.x hxyz
      have hy : y = -1 * u.y := congrArg Vec3.y hxyz
      have hzc : z = -1 * u.z := congrArg Vec3.z hxyz
      unfold Vec3.add
      rw [hx, hy, hzc]
      simp only [Vec3.mk.injEq]
      refine ⟨by ring, by ring, by ring⟩
    rw [hsum]
    unfold Vec3.normalize Vec3.norme Vec3.scalar_product
    norm_num [hz]
  · intro hxyz
    unfold cos_weighted_random_ray_unit_sphere
    rw [hu]
    simp only [Outcome.bind_ok, Vec3.new_from_coordinates]
    have hsum : u.add ⟨x, y, z⟩ ≠ ⟨0, 0, 0⟩ := by
      intro hzero
      apply hxyz
      have hx := congrArg Vec3.x hzero
      have hy := congrArg Vec3.y hzero
      have hzc := congrArg Vec3.z hzero
      simp only [Vec3.add] at hx hy hzc
      simp only [Vec3.smul, Vec3.mk.injEq]
      refine ⟨by linarith, by linarith, by linarith⟩
    have hdot : 0 < (u.add ⟨x, y, z⟩).scalar_product (u.add ⟨x, y, z⟩) :=
      scalar_product_self_pos _ hsum
    have hnz : Vec3.norme F (u.add ⟨x, y, z⟩) ≠ 0 := hpos _ hdot
    have hnorm : Vec3.normalize F (u.add ⟨x, y, z⟩) =
        .ok ⟨(u.add ⟨x, y, z⟩).x / Vec3.norme F (u.add ⟨x, y, z⟩),
          (u.add ⟨x, y, z⟩).y / Vec3.norme F (u.add ⟨x, y, z⟩),
          (u.add ⟨x, y, z⟩).z / Vec3.norme F (u.add ⟨x, y, z⟩)⟩ := by
      unfold Vec3.normalize
      rw [if_neg hnz]
    exact ⟨_, hnorm, by rw [hnorm]; rfl⟩

/-- C10 witness: concrete draw of the exact antipode (0,0,-1) of the
normalized normal (0,0,1): the sampler fails with the zero-magnitude-vector
error. -/
theorem C10_cos_weighted_antipode_spec_witness :
    Vec3.normalize qF ⟨0, 0, 2⟩ = .ok ⟨0, 0, 1⟩ ∧
    qF.sqrt 0 = 0 ∧
    (∀ q : ℚ, 0 < q → qF.sqrt q ≠ 0) ∧
    cos_weighted_random_ray_unit_sphere qF ⟨0, 0, 0⟩ ⟨0, 0, 2⟩
      [(0, 0, -1)] = .err .VectorHasNormeZero := by
  have hu : Vec3.normalize qF ⟨0, 0, 2⟩ = .ok ⟨0, 0, 1⟩ := by
    norm_num [Vec3.normalize, Vec3.norme, Vec3.scalar_product]
  have hz : qF.sqrt 0 = 0 := by simp
  have hpos : ∀ q : ℚ, 0 < q → qF.sqrt q ≠ 0 := fun q hq => by
    rw [qF_sqrt]; exact qsqrt_ne_zero_of_pos q hq
  refine ⟨hu, hz, hpos, ?_⟩
  exact (C10_cos_weighted_antipode_spec qF ⟨0, 0, 0⟩ ⟨0, 0, 2⟩ ⟨0, 0, 1⟩
    0 0 (-1) [] hu hz hpos).1 (by norm_num [Vec3.smul])

/-- C6 (amended): `source_is_above_horizon` errors with `PointNotOnSphere`
when the point is not epsilon-on the sphere; when the point is on the sphere
AND both constructed vectors are non-degenerate (the outward normal requires
the point to differ from the center, the point-to-source vector requires the
source to differ from the point — zero-magnitude cases error with
`VectorHasNormeZero` instead, see the counterexample), it returns true iff
the componentwise dot product of the outward normal (point minus center)
with the point-to-source vector is ≥ 0. -/
theorem C6_source_is_above_horizon_spec (F : FloatOps) (s : Sphere)
    (pt src : Point) :
    (point_is_on_sphere F s pt = false →
      source_is_above_horizon F s pt src = .err (.PointNotOnSphere pt s)) ∧
    (point_is_on_sphere F s pt = true →
      Vector.normeOf F (pt.x - s.center.x) (pt.y - s.center.y)
        (pt.z - s.center.z) ≠ 0 →
      Vector.normeOf F (src.x - pt.x) (src.y - pt.y) (src.z - pt.z) ≠ 0 →
      source_is_above_horizon F s pt src =
        .ok (decide (0 ≤ (pt.x - s.center.x) * (src.x - pt.x) +
          (pt.y - s.center.y) * (src.y - pt.y) +
          (pt.z - s.center.z) * (src.z - pt.z)))) := by
  constructor
  · intro hoff
    unfold source_is_above_horizon
    rw [hoff]
    simp
  · intro hon hn1 hn2
    unfold source_is_above_horizon
    rw [hon]
    simp only [if_true]
    unfold Vector.new_from_points Vector.new_from_coordinates
      Vector.normalizeRaw
    rw [if_neg hn1]
    simp only [Outcome.bind_ok]
    rw [if_neg hn2]
    simp only [Outcome.bind_ok, Outcome.ok.injEq]
    congr 1
    congr 1
    unfold Vector.scalar_product UnitVector.scalar_product
    simp only []
    field_simp

/-- C6 witness: point (3,4,0) on the radius-5 sphere `sW`, source (6,8,0)
strictly above the horizon: the amended specification applies and the result
is `ok true`. -/
theorem C6_source_is_above_horizon_spec_witness :
    point_is_on_sphere qF sW ⟨3, 4, 0⟩ = true ∧
    Vector.normeOf qF ((3 : ℚ) - 0) ((4 : ℚ) - 0) ((0 : ℚ) - 0) ≠ 0 ∧
    Vector.normeOf qF ((6 : ℚ) - 3) ((8 : ℚ) - 4) ((0 : ℚ) - 0) ≠ 0 ∧
    source_is_above_horizon qF sW ⟨3, 4, 0⟩ ⟨6, 8, 0⟩ = .ok true := by
  have hon : point_is_on_sphere qF sW ⟨3, 4, 0⟩ = true := by
    norm_num [point_is_on_sphere, Vector.normeOf, Point.sub, sW, eps]
  have hn1 : Vector.normeOf qF ((3 : ℚ) - 0) ((4 : ℚ) - 0) ((0 : ℚ) - 0) ≠
      0 := by
    norm_num [Vector.normeOf]
  have hn2 : Vector.normeOf qF ((6 : ℚ) - 3) ((8 : ℚ) - 4) ((0 : ℚ) - 0) ≠
      0 := by
    norm_num [Vector.normeOf]
  refine ⟨hon, hn1, hn2, ?_⟩
  have := (C6_source_is_above_horizon_spec qF sW ⟨3, 4, 0⟩ ⟨6, 8, 0⟩).2 hon
    (by simpa [sW] using hn1) (by simpa using hn2)
  rw [this]
  norm_num [sW]

/-- C7: `diffused_color` fails with the source-not-visible error exactly when
the componentwise dot product of the surface normal with the reversed unit
ray direction is ≤ 0; otherwise it returns the source color filtered by the
diffusion coefficient and scaled by the cosine of the angle between the
surface-to-source vector (the reversed ray direction) and the normal.  The
angle is acos of that same dot product over the product of the two
magnitudes, exactly as `angle_with` computes it. -/
theorem C7_diffused_color_spec (F : FloatOps) (source_color : Color)
    (dc : DiffusionCoefficient) (source_ray : RayU) (n : Vector) :
    diffused_color F source_color dc source_ray n =
      (if (n.norme * n.direction.x) * (-source_ray.direction.x) +
          (n.norme * n.direction.y) * (-source_ray.direction.y) +
          (n.norme * n.direction.z) * (-source_ray.direction.z) ≤ 0 then
        .err .SourceNotVisibleFromPoint
      else
        .ok ((dcMulColor dc source_color).mulScalar (F.cos (F.acos
          (((n.norme * n.direction.x) * (-source_ray.direction.x) +
            (n.norme * n.direction.y) * (-source_ray.direction.y) +
            (n.norme * n.direction.z) * (-source_ray.direction.z)) /
          (Vector.normeOf F (-source_ray.direction.x)
              (-source_ray.direction.y) (-source_ray.direction.z) *
            Vector.normeOf F (n.norme * n.direction.x)
              (n.norme * n.direction.y) (n.norme * n.direction.z))))))) := by
  unfold diffused_color
  have hsp : Vector.scalar_product n
      (Vector.mulScalar (UnitVector.to_vector source_ray.direction) (-1)) =
      (n.norme * n.direction.x) * (-source_ray.direction.x) +
      (n.norme * n.direction.y) * (-source_ray.direction.y) +
      (n.norme * n.direction.z) * (-source_ray.direction.z) := by
    unfold Vector.scalar_product UnitVector.scalar_product Vector.mulScalar
      UnitVector.to_vector
    simp only []
    ring
  simp only []
  rw [hsp]
  by_cases hc : (n.norme * n.direction.x) * (-source_ray.direction.x) +
      (n.norme * n.direction.y) * (-source_ray.direction.y) +
      (n.norme * n.direction.z) * (-source_ray.direction.z) ≤ 0
  · rw [if_pos hc, if_pos hc]
  · rw [if_neg hc, if_neg hc]
    congr 3
    unfold Vector.angle_with
    congr 1
    congr 1
    · unfold Vector.scalar_product UnitVector.scalar_product Vector.mulScalar
        UnitVector.to_vector
      simp only []
      ring
    · congr 1
      unfold Vector.norme_vec Vector.mulScalar UnitVector.to_vector
        Vector.normeOf
      simp only []
      congr 1
      ring

/-- C8: rendering is deterministic.  `make_image` is a pure function of the
scene, the sample count, the bounce budget and the grid; its only stateful
input is the draw stream, which it derives from the hardcoded seed, so any
two executions whose pseudorandom source agrees on that one seed (in
particular two executions of the very same program) produce identical
rasters. -/
theorem C8_make_image_deterministic (F : FloatOps)
    (seedStream seedStream2 : ℕ → RngStream)
    (number_of_points_per_pixel number_of_bounces : ℕ)
    (objects : List Object) (grid : Grid)
    (h : seedStream MAKE_IMAGE_SEED = seedStream2 MAKE_IMAGE_SEED) :
    make_image F seedStream number_of_points_per_pixel number_of_bounces
      objects grid =
    make_image F seedStream2 number_of_points_per_pixel number_of_bounces
      objects grid := by
  unfold make_image
  rw [h]

/-- C8 witness: two runs over a 1×1 grid whose (syntactically distinct)
pseudorandom sources agree on the hardcoded seed produce the same raster. -/
theorem C8_make_image_deterministic_witness :
    make_image qF (fun _ => []) 1 0 [objDemo] ⟨1, 1, [[BLACK]]⟩ =
      make_image qF (fun _ => ([] : RngStream) ++ []) 1 0 [objDemo]
        ⟨1, 1, [[BLACK]]⟩ :=
  C8_make_image_deterministic qF (fun _ => []) (fun _ => ([] : RngStream) ++ [])
    1 0 [objDemo] ⟨1, 1, [[BLACK]]⟩ rfl

end RayTracing
